import Mathlib

/-!
Verification development for `loadbalancer-manager-haproxy`.

This file gives a shallow embedding of the reconciliation core of the
repository: the desired-state data model (`pkg/lbapi/types.go`), the
configuration merge engine (`mergeConfig` in `internal/manager`), the
reconciliation routine (`updateConfigToLatest`), the message handler
(`ProcessMsg`), the targeting filter (`loadbalancerTargeted`), the
readiness gate (`waitForDataPlaneReady`), and the subscriber's
per-message acknowledgement decision (`Subscriber.listen` in
`internal/pubsub/subscriber.go`).

Pure Go functions become Lean functions; the stateful pieces (the
manager's `currentConfig` snapshot, the calls made to the two external
clients) are made explicit as state passing and call counters.  The
haproxy `config-parser` library is external to the repository and is
modelled at the interface the merge engine uses: labelled frontend and
backend sections holding directive lists, where creating an existing
section label fails and `Set` appends a directive entry.
-/

set_option autoImplicit false

/-! ## Desired-state data model (`pkg/lbapi/types.go`) -/

/-- An origin of a pool: `OriginNode` in `pkg/lbapi/types.go`.
Go `int64` is embedded as `Int`. -/
structure OriginNode where
  ID : String
  Name : String
  Target : String
  PortNumber : Int
  Active : Bool
deriving Repr, DecidableEq

/-- Structure `OriginEdges` in `pkg/lbapi/types.go`. -/
structure OriginEdges where
  Node : OriginNode
deriving Repr, DecidableEq

/-- Structure `Origins` in `pkg/lbapi/types.go`. -/
structure Origins where
  Edges : List OriginEdges
deriving Repr, DecidableEq

/-- Structure `Pool` in `pkg/lbapi/types.go`. -/
structure Pool where
  ID : String
  Name : String
  Protocol : String
  Origins : Origins
deriving Repr, DecidableEq

/-- Structure `PortNode` in `pkg/lbapi/types.go`.  Note: the node carries an
identifier, a name, a numeric port and pools; it has no address-family
field. -/
structure PortNode where
  ID : String
  Name : String
  Number : Int
  Pools : List Pool
deriving Repr, DecidableEq

/-- Structure `PortEdges` in `pkg/lbapi/types.go`. -/
structure PortEdges where
  Node : PortNode
deriving Repr, DecidableEq

/-- Structure `Ports` in `pkg/lbapi/types.go`. -/
structure Ports where
  Edges : List PortEdges
deriving Repr, DecidableEq

/-- Structure `LoadBalancer` in `pkg/lbapi/types.go` (owner, location and IP
addresses are carried as plain identifiers / strings; they play no role
in the merge). -/
structure LoadBalancer where
  ID : String
  Name : String
  OwnerID : String
  LocationID : String
  IPAddresses : List String
  Ports : Ports
deriving Repr, DecidableEq

/-- Structure `GetLoadBalancer` in `pkg/lbapi/types.go`: the desired-state query
response wrapping one `LoadBalancer`. -/
structure GetLoadBalancer where
  LoadBalancer : LoadBalancer
deriving Repr, DecidableEq

/-! ## Model of the haproxy configuration document

The merge engine manipulates the document through the external
`config-parser` library; we model exactly the operations it uses:
`SectionsCreate` (fails on a duplicate label), `Insert` of a `bind`
directive into a frontend, `Set` of a `use_backend` directive on a
frontend, and `Set` of a `server` entry on a backend (appending). -/

/-- A frontend section: its `bind` directive paths and its
`use_backend` directive names. -/
structure FrontendSection where
  binds : List String
  useBackends : List String
deriving Repr, DecidableEq

/-- A backend section: its `server` entries as (name, address) pairs. -/
structure BackendSection where
  servers : List (String × String)
deriving Repr, DecidableEq

/-- The configuration document state held by the parser: the base
template text plus labelled frontend and backend sections, in creation
order. -/
structure HAProxyConfig where
  base : String
  frontends : List (String × FrontendSection)
  backends : List (String × BackendSection)
deriving Repr, DecidableEq

/-- Look up the first section with the given label in an association
list of labelled sections. -/
def findSection {α : Type} (label : String) : List (String × α) → Option α
  | [] => none
  | (n, s) :: rest => if n = label then some s else findSection label rest

/-- Update the first section with the given label (identity on lists
without that label). -/
def setSection {α : Type} (label : String) (f : α → α) : List (String × α) → List (String × α)
  | [] => []
  | (n, s) :: rest =>
      if n = label then (n, f s) :: rest else (n, s) :: setSection label f rest

/-- Operation `cfg.SectionsCreate(parser.Frontends, name)`: fails (returns
`none`) when a frontend section with that label already exists,
otherwise appends a fresh empty section. -/
def sectionsCreateFrontend (cfg : HAProxyConfig) (name : String) : Option HAProxyConfig :=
  match findSection name cfg.frontends with
  | some _ => none
  | none => some { cfg with frontends := cfg.frontends ++ [(name, ⟨[], []⟩)] }

/-- Operation `cfg.SectionsCreate(parser.Backends, name)`. -/
def sectionsCreateBackend (cfg : HAProxyConfig) (name : String) : Option HAProxyConfig :=
  match findSection name cfg.backends with
  | some _ => none
  | none => some { cfg with backends := cfg.backends ++ [(name, ⟨[]⟩)] }

/-- Operation `cfg.Insert(parser.Frontends, name, "bind", ...)` with the bind path:
fails when the section does not exist, otherwise inserts the bind. -/
def insertBind (cfg : HAProxyConfig) (name : String) (path : String) : Option HAProxyConfig :=
  match findSection name cfg.frontends with
  | none => none
  | some _ =>
      some { cfg with
              frontends :=
                setSection name (fun fe => { fe with binds := path :: fe.binds }) cfg.frontends }

/-- Operation `cfg.Set(parser.Frontends, name, "use_backend", ...)`:
fails when the section does not exist, otherwise appends the directive. -/
def setUseBackend (cfg : HAProxyConfig) (name : String) (b : String) : Option HAProxyConfig :=
  match findSection name cfg.frontends with
  | none => none
  | some _ =>
      some { cfg with
              frontends :=
                setSection name (fun fe => { fe with useBackends := fe.useBackends ++ [b] })
                  cfg.frontends }

/-- Operation `cfg.Set(parser.Backends, name, "server", srvr)`: fails when the
section does not exist, otherwise appends the server entry. -/
def setServer (cfg : HAProxyConfig) (name : String) (srv : String × String) : Option HAProxyConfig :=
  match findSection name cfg.backends with
  | none => none
  | some _ =>
      some { cfg with
              backends :=
                setSection name (fun be => ⟨be.servers ++ [srv]⟩) cfg.backends }

/-! ## The merge engine (`mergeConfig` in `src/unnamed/part_005`) -/

/-- The labelled / attribute errors of `internal/manager` raised by
`mergeConfig` via `newLabelError` and `newAttrError`. -/
inductive MergeError where
  | frontendSectionLabelFailure (label : String)
  | frontendBindFailure
  | useBackendFailure
  | backendSectionLabelFailure (label : String)
  | backendServerFailure (label : String)
deriving Repr, DecidableEq

/-- The bind path built for a port:
`fmt.Sprintf("%s@:%d", "ipv4", p.Node.Number)` — the address family is
the hardcoded literal `"ipv4"` (the source carries a
`TODO AddressFamily?` comment at this line). -/
def portBindPath (p : PortNode) : String :=
  "ipv4@:" ++ toString p.Number

/-- The server address built for an origin:
`fmt.Sprintf("%s:%d check port %d", target, port, port)`, with
`" disabled"` appended when the origin is not active. -/
def serverAddress (o : OriginNode) : String :=
  let srvAddr := o.Target ++ ":" ++ toString o.PortNumber ++ " check port " ++ toString o.PortNumber
  if !o.Active then srvAddr ++ " disabled" else srvAddr

/-- The inner loop of `mergeConfig` over one pool's origins: each
origin becomes one `server` entry named by the origin's ID. -/
def addOrigins (label : String) (cfg : HAProxyConfig) :
    List OriginEdges → Except MergeError HAProxyConfig
  | [] => .ok cfg
  | origin :: rest =>
      match setServer cfg label (origin.Node.ID, serverAddress origin.Node) with
      | none => .error (.backendServerFailure label)
      | some cfg' => addOrigins label cfg' rest

/-- The loop of `mergeConfig` over a port's pools. -/
def addPools (label : String) (cfg : HAProxyConfig) :
    List Pool → Except MergeError HAProxyConfig
  | [] => .ok cfg
  | pool :: rest =>
      match addOrigins label cfg pool.Origins.Edges with
      | .error e => .error e
      | .ok cfg' => addPools label cfg' rest

/-- One iteration of `mergeConfig`'s outer loop: create the frontend
section, insert the bind, set `use_backend`, create the backend
section, then add all pools' origins as servers. -/
def mergePort (cfg : HAProxyConfig) (p : PortEdges) : Except MergeError HAProxyConfig :=
  match sectionsCreateFrontend cfg p.Node.ID with
  | none => .error (.frontendSectionLabelFailure p.Node.ID)
  | some cfg₁ =>
      match insertBind cfg₁ p.Node.ID (portBindPath p.Node) with
      | none => .error .frontendBindFailure
      | some cfg₂ =>
          match setUseBackend cfg₂ p.Node.ID p.Node.ID with
          | none => .error .useBackendFailure
          | some cfg₃ =>
              match sectionsCreateBackend cfg₃ p.Node.ID with
              | none => .error (.backendSectionLabelFailure p.Node.ID)
              | some cfg₄ => addPools p.Node.ID cfg₄ p.Node.Pools

/-- The outer loop of `mergeConfig` over the load balancer's ports. -/
def mergePorts (cfg : HAProxyConfig) : List PortEdges → Except MergeError HAProxyConfig
  | [] => .ok cfg
  | p :: rest =>
      match mergePort cfg p with
      | .error e => .error e
      | .ok cfg' => mergePorts cfg' rest

/-- Function `mergeConfig(cfg, lb)`: fold the desired-state graph into the base
configuration document. -/
def mergeConfig (cfg : HAProxyConfig) (lb : GetLoadBalancer) : Except MergeError HAProxyConfig :=
  mergePorts cfg lb.LoadBalancer.Ports.Edges

/-- Render one frontend section as configuration text. -/
def renderFrontend (entry : String × FrontendSection) : String :=
  "frontend " ++ entry.1 ++ "\n"
    ++ String.join (entry.2.binds.map (fun b => "  bind " ++ b ++ "\n"))
    ++ String.join (entry.2.useBackends.map (fun u => "  use_backend " ++ u ++ "\n"))

/-- Render one backend section as configuration text. -/
def renderBackend (entry : String × BackendSection) : String :=
  "backend " ++ entry.1 ++ "\n"
    ++ String.join (entry.2.servers.map (fun s => "  server " ++ s.1 ++ " " ++ s.2 ++ "\n"))

/-- Serialize the configuration document (`cfg.String()` on the parser):
the base template followed by the sections in creation order. -/
def configString (cfg : HAProxyConfig) : String :=
  cfg.base
    ++ String.join (cfg.frontends.map renderFrontend)
    ++ String.join (cfg.backends.map renderBackend)

/-! ## Change messages and the targeting filter -/

/-- Type `events.ChangeMessage` as consumed by the manager: primary subject
identifier, additional subject identifiers, and the event-type tag. -/
structure ChangeMessage where
  SubjectID : String
  AdditionalSubjectIDs : List String
  EventType : String
deriving Repr, DecidableEq

/-- The loop body of `loadbalancerTargeted` over the additional
subjects: first identifier equal to the managed one returns true. -/
def containsID (managedLBID : String) : List String → Bool
  | [] => false
  | subject :: rest => if subject = managedLBID then true else containsID managedLBID rest

/-- Method `Manager.loadbalancerTargeted` (`src/unnamed/part_005`): true when
the primary subject equals the managed identifier, otherwise scan the
additional subjects. -/
def loadbalancerTargeted (managedLBID : String) (msg : ChangeMessage) : Bool :=
  if msg.SubjectID = managedLBID then true
  else containsID managedLBID msg.AdditionalSubjectIDs

/-- The event-type switch of `ProcessMsg`: `events.CreateChangeType`,
`events.DeleteChangeType` and `events.UpdateChangeType` are the tags
`"create"`, `"delete"` and `"update"`. -/
def isChangeEvent (eventType : String) : Bool :=
  eventType = "create" || eventType = "delete" || eventType = "update"

/-! ## The reconciliation manager

`updateConfigToLatest` performs a straight-line sequence of fallible
external calls.  The environment below fixes, for one reconciliation,
the parsed base template and the outcomes of the three outbound calls
(desired-state fetch, validate, apply); the manager's mutable snapshot
`currentConfig` is threaded explicitly, and the calls made to the two
clients are counted. -/

/-- Outcomes of the external collaborators during one reconciliation.
A successful parse of the base template is assumed (parse failure is
`Fatal` and terminates the process before any of the modelled
behavior). -/
structure ManagerEnv where
  baseCfg : HAProxyConfig
  lbResult : Except String GetLoadBalancer
  checkConfigError : Option String
  postConfigError : Option String
deriving Repr

/-- The manager state the claims are about: the managed identifier and
the `currentConfig` snapshot. -/
structure ManagerState where
  ManagedLBID : String
  currentConfig : String
deriving Repr, DecidableEq

/-- Calls made to the Desired-State client (`GetLoadBalancer`) and the
Data-Plane client (`CheckConfig`, `PostConfig`). -/
structure Calls where
  getLoadBalancer : Nat
  checkConfig : Nat
  postConfig : Nat
deriving Repr, DecidableEq

/-- The errors `updateConfigToLatest` can return. -/
inductive ManagerError where
  | loadBalancerIDParamInvalid
  | lbAPIError (e : String)
  | mergeFailure (e : MergeError)
  | checkConfigFailure (e : String)
  | postConfigFailure (e : String)
deriving Repr, DecidableEq

/-- Result of one `updateConfigToLatest` call: the returned error (if
any), the manager state afterwards, and the client calls made. -/
structure UpdateOutcome where
  result : Except ManagerError Unit
  state : ManagerState
  calls : Calls
deriving Repr

/-- Method `Manager.updateConfigToLatest` (`src/unnamed/part_005`): require a
non-empty managed identifier, fetch desired state, merge, validate,
apply, and only then record the applied document in `currentConfig`. -/
def updateConfigToLatest (env : ManagerEnv) (m : ManagerState) : UpdateOutcome :=
  if m.ManagedLBID = "" then
    ⟨.error .loadBalancerIDParamInvalid, m, ⟨0, 0, 0⟩⟩
  else
    match env.lbResult with
    | .error e => ⟨.error (.lbAPIError e), m, ⟨1, 0, 0⟩⟩
    | .ok lb =>
        match mergeConfig env.baseCfg lb with
        | .error e => ⟨.error (.mergeFailure e), m, ⟨1, 0, 0⟩⟩
        | .ok cfg =>
            match env.checkConfigError with
            | some e => ⟨.error (.checkConfigFailure e), m, ⟨1, 1, 0⟩⟩
            | none =>
                match env.postConfigError with
                | some e => ⟨.error (.postConfigFailure e), m, ⟨1, 1, 1⟩⟩
                | none => ⟨.ok (), { m with currentConfig := configString cfg }, ⟨1, 1, 1⟩⟩

/-- The errors `ProcessMsg` can return: payload decode failure or a
reconciliation failure. -/
inductive ProcessError where
  | decodeFailure (e : String)
  | updateFailure (e : ManagerError)
deriving Repr, DecidableEq

/-- Result of one `ProcessMsg` call. -/
structure ProcessOutcome where
  result : Except ProcessError Unit
  state : ManagerState
  calls : Calls
deriving Repr

/-- Method `Manager.ProcessMsg` (`src/unnamed/part_005`): decode the payload
(the decode outcome is the `payload` argument), switch on the
event-type (create/delete/update fall through to the same branch),
drop untargeted messages, otherwise reconcile; any other event-type is
logged and ignored. -/
def ProcessMsg (env : ManagerEnv) (m : ManagerState) (payload : Except String ChangeMessage) :
    ProcessOutcome :=
  match payload with
  | .error e => ⟨.error (.decodeFailure e), m, ⟨0, 0, 0⟩⟩
  | .ok changeMsg =>
      if isChangeEvent changeMsg.EventType then
        if !loadbalancerTargeted m.ManagedLBID changeMsg then
          ⟨.ok (), m, ⟨0, 0, 0⟩⟩
        else
          let u := updateConfigToLatest env m
          match u.result with
          | .error e => ⟨.error (.updateFailure e), u.state, u.calls⟩
          | .ok _ => ⟨.ok (), u.state, u.calls⟩
      else
        ⟨.ok (), m, ⟨0, 0, 0⟩⟩

/-! ## The readiness gate -/

/-- The distinct failure of the readiness gate:
`dataplaneapi.ErrDataPlaneNotReady`. -/
inductive DataPlaneError where
  | notReady
deriving Repr, DecidableEq

/-- Result of `waitForDataPlaneReady`: the returned value and the
number of readiness polls performed. -/
structure WaitOutcome where
  result : Except DataPlaneError Unit
  polls : Nat
deriving Repr

/-- Method `Manager.waitForDataPlaneReady` (`src/unnamed/part_005`):
`for i := 0; i < retries; i++ { if APIIsReady { return nil }; sleep }`
then `return ErrDataPlaneNotReady`.  The `i`-th poll of
`DataPlaneClient.APIIsReady` reports `ready i`; the sleep between
attempts is irrelevant to the result and is not modelled.  The
outcome also records how many polls were made. -/
def waitForDataPlaneReady (ready : Nat → Bool) : Nat → WaitOutcome
  | 0 => ⟨.error .notReady, 0⟩
  | retries + 1 =>
      if ready 0 then ⟨.ok (), 1⟩
      else
        let w := waitForDataPlaneReady (fun i => ready (i + 1)) retries
        ⟨w.result, w.polls + 1⟩

/-! ## The subscriber's acknowledgement decision
(`Subscriber.listen` in `src/internal/pubsub/subscriber.go`) -/

/-- What the listen loop does with a delivered message after the
handler returns: acknowledge, negatively-acknowledge with a delay, or
terminate. -/
inductive MsgAction where
  | ack
  | nak (delay : Nat)
  | term
deriving Repr, DecidableEq

/-- Constant `defaultNakDelay = 10 * time.Second`, in nanoseconds
(`time.Duration`'s unit). -/
def defaultNakDelay : Nat := 10 * 1000000000

/-- The per-message decision of `Subscriber.listen`:
`handlerFailed` is whether `s.msgHandler(msg)` returned an error and
`deliveries` is `msg.Deliveries()` (deliveries before the current
one), so `deliveries + 1` is the attempts so far inclusive of the
current one.  On failure, terminate when a cap is configured and it is
exceeded, else nak with the fixed delay; on success, ack. -/
def listenDecision (maxProcessMsgAttempts : Nat) (deliveries : Nat) (handlerFailed : Bool) :
    MsgAction :=
  if handlerFailed then
    if maxProcessMsgAttempts ≠ 0 ∧ deliveries + 1 > maxProcessMsgAttempts then
      .term
    else
      .nak defaultNakDelay
  else
    .ack

/-! ## Spec-side bind path

The spec's data model (§3) gives every Port an address family, and
§4.2 prescribes the bind path `<address-family>@:<port-number>`.  The
source `PortNode` (`pkg/lbapi/types.go`) carries no address-family
field, so this port shape and path exist only on the spec side; they
are stated here to be compared with the code's `portBindPath`. -/

/-- Modelled from the spec: a Port as §3 describes it, carrying its own
address family next to the numeric port (the field missing from the
source's `PortNode`). -/
structure SpecPort where
  addressFamily : String
  number : Int
deriving Repr, DecidableEq

/-- Modelled from the spec: the bind path §4.2 prescribes,
`<address-family>@:<port-number>` formed from the Port's own address
family and numeric port. -/
def specBindPath (p : SpecPort) : String :=
  p.addressFamily ++ "@:" ++ toString p.number

/-! ## Concrete inputs

The desired-state graph of the spec's §8 "Merge structure" example and
a few small companions used to evaluate the definitions. -/

/-- A base configuration template with no frontend or backend
sections (as parsed from the deployment's base haproxy config). -/
def exampleBase : HAProxyConfig :=
  { base := "global\n  daemon\n\n", frontends := [], backends := [] }

/-- The active origin of the §8 example: target `1.2.3.4`, port 2222. -/
def exampleOriginActive : OriginNode :=
  { ID := "loadogn-1", Name := "origin-1", Target := "1.2.3.4", PortNumber := 2222,
    Active := true }

/-- The inactive origin of the §8 example: target `4.3.2.1`, port 2222. -/
def exampleOriginInactive : OriginNode :=
  { ID := "loadogn-2", Name := "origin-2", Target := "4.3.2.1", PortNumber := 2222,
    Active := false }

/-- The single pool of the §8 example, holding the two origins. -/
def examplePool : Pool :=
  { ID := "loadpol-1", Name := "pool-1", Protocol := "tcp",
    Origins := { Edges := [{ Node := exampleOriginActive }, { Node := exampleOriginInactive }] } }

/-- The single port of the §8 example: id `loadprt-1`, port 22. -/
def examplePort : PortNode :=
  { ID := "loadprt-1", Name := "ssh", Number := 22, Pools := [examplePool] }

/-- The desired-state response of the §8 example. -/
def exampleLB : GetLoadBalancer :=
  { LoadBalancer :=
    { ID := "loadbal-test", Name := "test-lb", OwnerID := "tnntten-test",
      LocationID := "lctnloc-test", IPAddresses := [],
      Ports := { Edges := [{ Node := examplePort }] } } }

/-- The document produced by merging `exampleLB` into `exampleBase`. -/
def mergedExample : HAProxyConfig :=
  { base := "global\n  daemon\n\n",
    frontends := [("loadprt-1", { binds := ["ipv4@:22"], useBackends := ["loadprt-1"] })],
    backends := [("loadprt-1",
      { servers := [("loadogn-1", "1.2.3.4:2222 check port 2222"),
                    ("loadogn-2", "4.3.2.1:2222 check port 2222 disabled")] })] }

/-- A port used to exhibit the hardcoded bind address family: spec-side
address family `ipv6`, numeric port 443. -/
def counterPort : PortNode :=
  { ID := "loadprt-6", Name := "https", Number := 443, Pools := [] }

/-- A desired-state response holding only `counterPort`. -/
def counterLB : GetLoadBalancer :=
  { LoadBalancer :=
    { ID := "loadbal-test", Name := "test-lb", OwnerID := "tnntten-test",
      LocationID := "lctnloc-test", IPAddresses := [],
      Ports := { Edges := [{ Node := counterPort }] } } }

/-- A desired-state response whose port list is empty. -/
def emptyPortsLB : GetLoadBalancer :=
  { LoadBalancer :=
    { ID := "loadbal-test", Name := "test-lb", OwnerID := "tnntten-test",
      LocationID := "lctnloc-test", IPAddresses := [],
      Ports := { Edges := [] } } }

/-- An environment whose desired-state fetch fails and whose data-plane
calls would succeed. -/
def fetchFailureEnv : ManagerEnv :=
  { baseCfg := exampleBase, lbResult := .error "lbapi unavailable",
    checkConfigError := none, postConfigError := none }

/-- A manager state with a managed identifier and a previously applied
snapshot. -/
def priorState : ManagerState :=
  { ManagedLBID := "loadbal-test", currentConfig := "prior applied config" }

/-- A create message targeted at a different load balancer. -/
def untargetedMsg : ChangeMessage :=
  { SubjectID := "loadprt-X", AdditionalSubjectIDs := ["loadbal-B"], EventType := "create" }

/-- Whether a frontend section labelled `label` exists in `cfg` and
carries bind path `b`.  The merge proofs track this through every
operation of the engine. -/
def FrontendBindIn (label b : String) (cfg : HAProxyConfig) : Prop :=
  ∃ fe, findSection label cfg.frontends = some fe ∧ b ∈ fe.binds

/-! ## Association-list lemmas for labelled sections -/

/-- A label found in the left part of an appended section list is
found with the same value in the whole list. -/
theorem findSection_append_some {α : Type} {label : String} {xs ys : List (String × α)} {s : α}
    (h : findSection label xs = some s) : findSection label (xs ++ ys) = some s := by
  induction xs with
  | nil => simp [findSection] at h
  | cons hd tl ih =>
      obtain ⟨n, v⟩ := hd
      by_cases hn : n = label
      · simpa [findSection, hn] using h
      · simp only [findSection, hn, if_false, List.cons_append, ite_false] at h ⊢
        exact ih h

/-- A label absent from the left part of an appended section list is
looked up in the right part. -/
theorem findSection_append_none {α : Type} {label : String} {xs ys : List (String × α)}
    (h : findSection label xs = none) : findSection label (xs ++ ys) = findSection label ys := by
  induction xs with
  | nil => rfl
  | cons hd tl ih =>
      obtain ⟨n, v⟩ := hd
      by_cases hn : n = label
      · simp [findSection, hn] at h
      · simp only [findSection, hn, if_false, List.cons_append, ite_false] at h ⊢
        exact ih h

/-- Updating a label transforms exactly that label's looked-up value. -/
theorem findSection_setSection_self {α : Type} (label : String) (f : α → α)
    (xs : List (String × α)) :
    findSection label (setSection label f xs) = (findSection label xs).map f := by
  induction xs with
  | nil => rfl
  | cons hd tl ih =>
      obtain ⟨n, v⟩ := hd
      by_cases hn : n = label
      · simp [findSection, setSection, hn]
      · simp [findSection, setSection, hn, ih]

/-- Updating one label leaves lookups of any other label unchanged. -/
theorem findSection_setSection_ne {α : Type} {l n : String} (h : l ≠ n) (f : α → α)
    (xs : List (String × α)) :
    findSection l (setSection n f xs) = findSection l xs := by
  induction xs with
  | nil => rfl
  | cons hd tl ih =>
      obtain ⟨m, v⟩ := hd
      by_cases hm : m = n
      · subst hm
        simp [findSection, setSection, Ne.symm h]
      · by_cases hml : m = l
        · subst hml
          simp [findSection, setSection, h]
        · simp [findSection, setSection, hm, hml, ih]

/-! ## Bind persistence through the merge engine -/

/-- Predicate `FrontendBindIn` only looks at the frontend sections. -/
theorem frontendBindIn_of_frontends_eq {cfg cfg' : HAProxyConfig} {l b : String}
    (h : cfg'.frontends = cfg.frontends) (hb : FrontendBindIn l b cfg) :
    FrontendBindIn l b cfg' := by
  obtain ⟨fe, hfe, hm⟩ := hb
  exact ⟨fe, h ▸ hfe, hm⟩

/-- Creating a fresh frontend section preserves existing binds. -/
theorem frontendBindIn_sectionsCreateFrontend {cfg cfg' : HAProxyConfig} {n l b : String}
    (h : sectionsCreateFrontend cfg n = some cfg') (hb : FrontendBindIn l b cfg) :
    FrontendBindIn l b cfg' := by
  obtain ⟨fe, hfe, hm⟩ := hb
  unfold sectionsCreateFrontend at h
  split at h
  · simp at h
  · injection h with h
    subst h
    exact ⟨fe, findSection_append_some hfe, hm⟩

/-- Inserting a bind into some frontend preserves existing binds. -/
theorem frontendBindIn_insertBind {cfg cfg' : HAProxyConfig} {n path l b : String}
    (h : insertBind cfg n path = some cfg') (hb : FrontendBindIn l b cfg) :
    FrontendBindIn l b cfg' := by
  obtain ⟨fe, hfe, hm⟩ := hb
  unfold insertBind at h
  split at h
  · simp at h
  · injection h with h
    subst h
    by_cases hl : l = n
    · subst hl
      refine ⟨{ fe with binds := path :: fe.binds }, ?_, List.mem_cons_of_mem _ hm⟩
      rw [findSection_setSection_self, hfe]
      rfl
    · exact ⟨fe, by rw [findSection_setSection_ne hl, hfe], hm⟩

/-- A successful bind insertion makes the bind present in its
section. -/
theorem frontendBindIn_insertBind_self {cfg cfg' : HAProxyConfig} {n path : String}
    (h : insertBind cfg n path = some cfg') : FrontendBindIn n path cfg' := by
  unfold insertBind at h
  split at h
  · simp at h
  · next fe hfe =>
      injection h with h
      subst h
      refine ⟨{ fe with binds := path :: fe.binds }, ?_, List.mem_cons_self _ _⟩
      rw [findSection_setSection_self, hfe]
      rfl

/-- Appending a `use_backend` directive preserves binds. -/
theorem frontendBindIn_setUseBackend {cfg cfg' : HAProxyConfig} {n u l b : String}
    (h : setUseBackend cfg n u = some cfg') (hb : FrontendBindIn l b cfg) :
    FrontendBindIn l b cfg' := by
  obtain ⟨fe, hfe, hm⟩ := hb
  unfold setUseBackend at h
  split at h
  · simp at h
  · injection h with h
    subst h
    by_cases hl : l = n
    · subst hl
      refine ⟨{ fe with useBackends := fe.useBackends ++ [u] }, ?_, hm⟩
      rw [findSection_setSection_self, hfe]
      rfl
    · exact ⟨fe, by rw [findSection_setSection_ne hl, hfe], hm⟩

/-- Creating a backend section leaves the frontends untouched. -/
theorem sectionsCreateBackend_frontends {cfg cfg' : HAProxyConfig} {n : String}
    (h : sectionsCreateBackend cfg n = some cfg') : cfg'.frontends = cfg.frontends := by
  unfold sectionsCreateBackend at h
  split at h
  · simp at h
  · injection h with h
    subst h
    rfl

/-- Appending a server entry leaves the frontends untouched. -/
theorem setServer_frontends {cfg cfg' : HAProxyConfig} {n : String} {srv : String × String}
    (h : setServer cfg n srv = some cfg') : cfg'.frontends = cfg.frontends := by
  unfold setServer at h
  split at h
  · simp at h
  · injection h with h
    subst h
    rfl

/-- The origin loop only touches backend sections. -/
theorem addOrigins_frontends {label : String} :
    ∀ {origins : List OriginEdges} {cfg cfg' : HAProxyConfig},
      addOrigins label cfg origins = .ok cfg' → cfg'.frontends = cfg.frontends := by
  intro origins
  induction origins with
  | nil =>
      intro cfg cfg' h
      injection h with h
      subst h
      rfl
  | cons o rest ih =>
      intro cfg cfg' h
      unfold addOrigins at h
      split at h
      · simp at h
      · next cfg₁ hset =>
          rw [ih h, setServer_frontends hset]

/-- The pool loop only touches backend sections. -/
theorem addPools_frontends {label : String} :
    ∀ {pools : List Pool} {cfg cfg' : HAProxyConfig},
      addPools label cfg pools = .ok cfg' → cfg'.frontends = cfg.frontends := by
  intro pools
  induction pools with
  | nil =>
      intro cfg cfg' h
      injection h with h
      subst h
      rfl
  | cons pool rest ih =>
      intro cfg cfg' h
      unfold addPools at h
      split at h
      · simp at h
      · next cfg₁ hadd =>
          rw [ih h, addOrigins_frontends hadd]

/-- One port's merge step preserves every bind already present. -/
theorem mergePort_bindIn_mono {cfg cfg' : HAProxyConfig} {p : PortEdges} {l b : String}
    (h : mergePort cfg p = .ok cfg') (hb : FrontendBindIn l b cfg) :
    FrontendBindIn l b cfg' := by
  unfold mergePort at h
  split at h
  · simp at h
  · next cfg₁ h₁ =>
      split at h
      · simp at h
      · next cfg₂ h₂ =>
          split at h
          · simp at h
          · next cfg₃ h₃ =>
              split at h
              · simp at h
              · next cfg₄ h₄ =>
                  have hb₁ := frontendBindIn_sectionsCreateFrontend h₁ hb
                  have hb₂ := frontendBindIn_insertBind h₂ hb₁
                  have hb₃ := frontendBindIn_setUseBackend h₃ hb₂
                  have hb₄ := frontendBindIn_of_frontends_eq (sectionsCreateBackend_frontends h₄) hb₃
                  exact frontendBindIn_of_frontends_eq (addPools_frontends h) hb₄

/-- One port's merge step puts the port's bind path in the port's
frontend section. -/
theorem mergePort_bindIn_self {cfg cfg' : HAProxyConfig} {p : PortEdges}
    (h : mergePort cfg p = .ok cfg') :
    FrontendBindIn p.Node.ID (portBindPath p.Node) cfg' := by
  unfold mergePort at h
  split at h
  · simp at h
  · next cfg₁ h₁ =>
      split at h
      · simp at h
      · next cfg₂ h₂ =>
          split at h
          · simp at h
          · next cfg₃ h₃ =>
              split at h
              · simp at h
              · next cfg₄ h₄ =>
                  have hb₂ := frontendBindIn_insertBind_self h₂
                  have hb₃ := frontendBindIn_setUseBackend h₃ hb₂
                  have hb₄ := frontendBindIn_of_frontends_eq (sectionsCreateBackend_frontends h₄) hb₃
                  exact frontendBindIn_of_frontends_eq (addPools_frontends h) hb₄

/-- The outer loop preserves every bind already present. -/
theorem mergePorts_bindIn_mono :
    ∀ {ps : List PortEdges} {cfg cfg' : HAProxyConfig} {l b : String},
      mergePorts cfg ps = .ok cfg' → FrontendBindIn l b cfg → FrontendBindIn l b cfg' := by
  intro ps
  induction ps with
  | nil =>
      intro cfg cfg' l b h hb
      injection h with h
      subst h
      exact hb
  | cons q rest ih =>
      intro cfg cfg' l b h hb
      unfold mergePorts at h
      split at h
      · simp at h
      · next cfg₁ hq =>
          exact ih h (mergePort_bindIn_mono hq hb)

/-- Every port processed by the outer loop ends with its bind path in
its frontend section. -/
theorem mergePorts_bindIn :
    ∀ {ps : List PortEdges} {cfg cfg' : HAProxyConfig} {p : PortEdges},
      mergePorts cfg ps = .ok cfg' → p ∈ ps →
      FrontendBindIn p.Node.ID (portBindPath p.Node) cfg' := by
  intro ps
  induction ps with
  | nil =>
      intro cfg cfg' p _ hp
      exact absurd hp (List.not_mem_nil p)
  | cons q rest ih =>
      intro cfg cfg' p h hp
      unfold mergePorts at h
      split at h
      · simp at h
      · next cfg₁ hq =>
          rcases List.mem_cons.mp hp with hpq | hpr
          · subst hpq
            exact mergePorts_bindIn_mono h (mergePort_bindIn_self hq)
          · exact ih h hpr

/-! ## Readiness-gate lemmas -/

/-- The gate never polls more than `retries` times. -/
theorem waitForDataPlaneReady_polls_le (r : Nat) :
    ∀ ready : Nat → Bool, (waitForDataPlaneReady ready r).polls ≤ r := by
  induction r with
  | zero => intro ready; exact Nat.le_refl 0
  | succ n ih =>
      intro ready
      simp only [waitForDataPlaneReady]
      split
      · exact Nat.succ_le_succ (Nat.zero_le n)
      · exact Nat.succ_le_succ (ih (fun i => ready (i + 1)))

/-- When every poll reports not ready, the gate polls all `retries`
times and returns the distinct not-ready error. -/
theorem waitForDataPlaneReady_all_not_ready (r : Nat) :
    ∀ ready : Nat → Bool, (∀ i, i < r → ready i = false) →
      waitForDataPlaneReady ready r = ⟨.error .notReady, r⟩ := by
  induction r with
  | zero => intro ready _; rfl
  | succ n ih =>
      intro ready h
      have h0 : ready 0 = false := h 0 (Nat.succ_pos n)
      have hrec := ih (fun i => ready (i + 1)) (fun i hi => h (i + 1) (Nat.succ_lt_succ hi))
      simp [waitForDataPlaneReady, h0, hrec]

/-- When poll `i` is the first to report ready and `i` is within the
retry budget, the gate succeeds after exactly `i + 1` polls. -/
theorem waitForDataPlaneReady_first_ready (r : Nat) :
    ∀ (ready : Nat → Bool) (i : Nat), i < r → ready i = true →
      (∀ j, j < i → ready j = false) →
      waitForDataPlaneReady ready r = ⟨.ok (), i + 1⟩ := by
  induction r with
  | zero =>
      intro ready i hi
      exact absurd hi (Nat.not_lt_zero i)
  | succ n ih =>
      intro ready i hi hready hbefore
      cases i with
      | zero => simp [waitForDataPlaneReady, hready]
      | succ k =>
          have h0 : ready 0 = false := hbefore 0 (Nat.succ_pos k)
          have hrec := ih (fun m => ready (m + 1)) k (Nat.lt_of_succ_lt_succ hi) hready
            (fun j hj => hbefore (j + 1) (Nat.succ_lt_succ hj))
          simp [waitForDataPlaneReady, h0, hrec]

/-! ## Claims -/

/-- The additional-subjects loop returns true exactly for lists
containing the managed identifier. -/
theorem containsID_mem (managedLBID : String) (l : List String) :
    containsID managedLBID l = true ↔ managedLBID ∈ l := by
  induction l with
  | nil => simp [containsID]
  | cons s rest ih =>
      by_cases hs : s = managedLBID
      · simp [containsID, hs]
      · simp [containsID, hs, ih, Ne.symm hs]

/-- C1: for every ChangeMessage, `loadbalancerTargeted` returns true
iff the managed load-balancer identifier equals the message's primary
subject identifier or appears in its additional-subjects list; for
every other combination it returns false.  The comparison is plain
identifier equality, so identifiers with unrelated kind tags simply
compare unequal. -/
theorem loadbalancerTargeted_iff (managedLBID : String) (msg : ChangeMessage) :
    loadbalancerTargeted managedLBID msg = true ↔
      msg.SubjectID = managedLBID ∨ managedLBID ∈ msg.AdditionalSubjectIDs := by
  unfold loadbalancerTargeted
  by_cases hs : msg.SubjectID = managedLBID
  · simp [hs]
  · simp [hs, containsID_mem]

/-- C2: when the handler fails, the subscriber terminates the message
iff a maximum-attempts limit is configured (non-zero) and the delivery
count inclusive of the current attempt (`deliveries + 1`, with
`deliveries` the redeliveries before this one) exceeds it; otherwise it
negatively-acknowledges with the fixed delay.  In particular, on the
`N`-th failure (`deliveries = N - 1`) with `N` above the cap, the
message is terminated, not negatively-acknowledged. -/
theorem listen_attemptCap (maxProcessMsgAttempts deliveries : Nat) :
    (maxProcessMsgAttempts ≠ 0 ∧ deliveries + 1 > maxProcessMsgAttempts →
      listenDecision maxProcessMsgAttempts deliveries true = .term) ∧
    (¬(maxProcessMsgAttempts ≠ 0 ∧ deliveries + 1 > maxProcessMsgAttempts) →
      listenDecision maxProcessMsgAttempts deliveries true = .nak defaultNakDelay) := by
  constructor
  · intro h
    simp [listenDecision, h]
  · intro h
    simp [listenDecision, h]

/-- Witness for C2: with a cap of 3, the fourth attempt of a failing
message is terminated. -/
theorem listen_attemptCap_witness :
    ((3 : Nat) ≠ 0 ∧ 3 + 1 > 3) ∧ listenDecision 3 3 true = .term :=
  ⟨by decide, (listen_attemptCap 3 3).1 (by decide)⟩

/-- C9: with no maximum-attempts limit configured (zero), a failing
message is always negatively-acknowledged with the fixed delay and
never terminated, regardless of its delivery count. -/
theorem listen_noCap_nak (deliveries : Nat) :
    listenDecision 0 deliveries true = .nak defaultNakDelay ∧
    listenDecision 0 deliveries true ≠ .term := by
  constructor
  · simp [listenDecision]
  · simp [listenDecision]

/-- C3: merging the §8 example desired-state graph (one port
`loadprt-1` on port 22, one pool, one active origin `1.2.3.4:2222` and
one inactive origin `4.3.2.1:2222`) into the base template yields a
document with a frontend section `loadprt-1` binding `ipv4@:22` and
using backend `loadprt-1`, and a backend section `loadprt-1` with two
server entries keyed by the origin identifiers, the inactive one
suffixed "disabled" rather than omitted. -/
theorem mergeConfig_example_structure :
    mergeConfig exampleBase exampleLB = .ok mergedExample ∧
    findSection "loadprt-1" mergedExample.frontends =
      some { binds := ["ipv4@:22"], useBackends := ["loadprt-1"] } ∧
    findSection "loadprt-1" mergedExample.backends =
      some { servers := [("loadogn-1", "1.2.3.4:2222 check port 2222"),
                         ("loadogn-2", "4.3.2.1:2222 check port 2222 disabled")] } :=
  ⟨rfl, rfl, rfl⟩

/-- C4 counterexample: the bind path the merge engine emits is not the
spec's `<address-family>@:<port-number>` formed from the Port's own
address family: for a port numbered 443 whose spec-side address family
is `ipv6`, the emitted path is `ipv4@:443`, not `ipv6@:443`. -/
theorem mergeConfig_bindPath_counterexample :
    mergeConfig exampleBase counterLB =
      .ok { base := "global\n  daemon\n\n",
            frontends := [("loadprt-6", { binds := ["ipv4@:443"], useBackends := ["loadprt-6"] })],
            backends := [("loadprt-6", { servers := [] })] } ∧
    specBindPath { addressFamily := "ipv6", number := 443 } = "ipv6@:443" ∧
    portBindPath counterPort ≠ specBindPath { addressFamily := "ipv6", number := 443 } :=
  ⟨rfl, rfl, by decide⟩

/-- C4 (amended): for every Port in the desired-state graph, the merge
engine adds to that Port's frontend section a bind directive whose path
is `ipv4@:<port-number>`: the port number is the Port's own, but the
address family is the hardcoded constant `ipv4` (the desired-state Port
carries no address-family field). -/
theorem mergeConfig_bind_hardcoded_ipv4 (cfg cfg' : HAProxyConfig) (lb : GetLoadBalancer)
    (p : PortEdges) (hm : mergeConfig cfg lb = .ok cfg')
    (hp : p ∈ lb.LoadBalancer.Ports.Edges) :
    ∃ fe, findSection p.Node.ID cfg'.frontends = some fe ∧
      ("ipv4@:" ++ toString p.Node.Number) ∈ fe.binds :=
  mergePorts_bindIn hm hp

/-- Witness for amended C4: the §8 example's port gets bind
`ipv4@:22`. -/
theorem mergeConfig_bind_hardcoded_ipv4_witness :
    ∃ fe, findSection "loadprt-1" mergedExample.frontends = some fe ∧
      ("ipv4@:" ++ toString (22 : Int)) ∈ fe.binds :=
  mergeConfig_bind_hardcoded_ipv4 exampleBase mergedExample exampleLB { Node := examplePort }
    rfl (List.mem_singleton_self _)

/-- C5: the merge is deterministic: two merges of the same base
template and the same desired-state graph yield byte-identical
configuration documents. -/
theorem mergeConfig_deterministic (cfg : HAProxyConfig) (lb : GetLoadBalancer)
    (c₁ c₂ : HAProxyConfig) (h₁ : mergeConfig cfg lb = .ok c₁)
    (h₂ : mergeConfig cfg lb = .ok c₂) : configString c₁ = configString c₂ := by
  rw [h₁] at h₂
  injection h₂ with h
  rw [h]

/-- Witness for C5: both merges of the §8 example produce the same
rendered document. -/
theorem mergeConfig_deterministic_witness :
    mergeConfig exampleBase exampleLB = .ok mergedExample ∧
    configString mergedExample = configString mergedExample :=
  ⟨rfl, mergeConfig_deterministic exampleBase exampleLB mergedExample mergedExample rfl rfl⟩

/-- C6: when the Desired-State Client's fetch fails, the
reconciliation routine returns a non-nil error and the last-applied
configuration snapshot is left unchanged from its prior value. -/
theorem updateConfigToLatest_fetchFailure (env : ManagerEnv) (m : ManagerState) (e : String)
    (h : env.lbResult = .error e) :
    (∃ err, (updateConfigToLatest env m).result = .error err) ∧
    (updateConfigToLatest env m).state.currentConfig = m.currentConfig := by
  unfold updateConfigToLatest
  by_cases hid : m.ManagedLBID = ""
  · simp [hid]
  · simp [hid, h]

/-- Witness for C6: a failing fetch leaves the prior snapshot in
place and surfaces an error. -/
theorem updateConfigToLatest_fetchFailure_witness :
    fetchFailureEnv.lbResult = .error "lbapi unavailable" ∧
    ((∃ err, (updateConfigToLatest fetchFailureEnv priorState).result = .error err) ∧
      (updateConfigToLatest fetchFailureEnv priorState).state.currentConfig =
        priorState.currentConfig) :=
  ⟨rfl, updateConfigToLatest_fetchFailure fetchFailureEnv priorState "lbapi unavailable" rfl⟩

/-- C7: a decoded message whose event type is not create/update/delete,
or which is not targeted at the managed load balancer, is handled
successfully with zero calls to the Desired-State client and zero calls
to the Data-Plane client, and the manager state unchanged. -/
theorem ProcessMsg_filtered (env : ManagerEnv) (m : ManagerState) (changeMsg : ChangeMessage)
    (h : isChangeEvent changeMsg.EventType = false ∨
         loadbalancerTargeted m.ManagedLBID changeMsg = false) :
    ProcessMsg env m (.ok changeMsg) = ⟨.ok (), m, ⟨0, 0, 0⟩⟩ := by
  unfold ProcessMsg
  rcases h with h | h
  · simp [h]
  · cases hc : isChangeEvent changeMsg.EventType
    · simp [hc]
    · simp [hc, h]

/-- Witness for C7: a create message targeted at a different load
balancer is dropped successfully without client calls. -/
theorem ProcessMsg_filtered_witness :
    (isChangeEvent untargetedMsg.EventType = false ∨
      loadbalancerTargeted priorState.ManagedLBID untargetedMsg = false) ∧
    ProcessMsg fetchFailureEnv priorState (.ok untargetedMsg) =
      ⟨.ok (), priorState, ⟨0, 0, 0⟩⟩ :=
  ⟨.inr rfl, ProcessMsg_filtered fetchFailureEnv priorState untargetedMsg (.inr rfl)⟩

/-- C8: with `retries = r ≥ 1`, the readiness gate polls at most `r`
times; when poll `i` (counting from zero) is the first to report ready,
it returns success after exactly `i + 1` polls; and it returns the
distinct not-ready error exactly when all `r` polls report not
ready. -/
theorem waitForDataPlaneReady_spec (ready : Nat → Bool) (r : Nat) (_hr : 1 ≤ r) :
    (waitForDataPlaneReady ready r).polls ≤ r ∧
    (∀ i, i < r → ready i = true → (∀ j, j < i → ready j = false) →
      waitForDataPlaneReady ready r = ⟨.ok (), i + 1⟩) ∧
    ((waitForDataPlaneReady ready r).result = .error .notReady ↔
      ∀ i, i < r → ready i = false) := by
  refine ⟨waitForDataPlaneReady_polls_le r ready,
    fun i hi h1 h2 => waitForDataPlaneReady_first_ready r ready i hi h1 h2, ?_, ?_⟩
  · intro hres
    by_contra hall
    push_neg at hall
    obtain ⟨i, hi, hne⟩ := hall
    have hit : ready i = true := by
      cases hri : ready i
      · exact absurd hri hne
      · rfl
    have hex : ∃ k, ready k = true := ⟨i, hit⟩
    have hkr : Nat.find hex < r := lt_of_le_of_lt (Nat.find_min' hex hit) hi
    have hbefore : ∀ j, j < Nat.find hex → ready j = false := by
      intro j hj
      have hnot := Nat.find_min hex hj
      cases hrj : ready j
      · rfl
      · exact absurd hrj hnot
    have hrun := waitForDataPlaneReady_first_ready r ready (Nat.find hex) hkr
      (Nat.find_spec hex) hbefore
    rw [hrun] at hres
    simp at hres
  · intro hall
    rw [waitForDataPlaneReady_all_not_ready r ready hall]

/-- Witness for C8: with three retries and readiness first reported at
the second poll, the gate succeeds after two polls. -/
theorem waitForDataPlaneReady_spec_witness :
    (1 : Nat) ≤ 3 ∧
    ((waitForDataPlaneReady (fun i => i == 1) 3).polls ≤ 3 ∧
     (∀ i, i < 3 → (fun i : Nat => i == 1) i = true →
        (∀ j, j < i → (fun i : Nat => i == 1) j = false) →
        waitForDataPlaneReady (fun i => i == 1) 3 = ⟨.ok (), i + 1⟩) ∧
     ((waitForDataPlaneReady (fun i => i == 1) 3).result = .error .notReady ↔
        ∀ i, i < 3 → (fun i : Nat => i == 1) i = false)) :=
  ⟨by decide, waitForDataPlaneReady_spec (fun i => i == 1) 3 (by decide)⟩

/-- C10: merging a desired-state graph with no ports succeeds and
returns the base configuration document unchanged: no frontend or
backend section, bind, use_backend or server entry is added. -/
theorem mergeConfig_emptyPorts (cfg : HAProxyConfig) (lb : GetLoadBalancer)
    (h : lb.LoadBalancer.Ports.Edges = []) : mergeConfig cfg lb = .ok cfg := by
  unfold mergeConfig
  rw [h]
  rfl

/-- Witness for C10: merging the empty-ports response leaves the base
document untouched. -/
theorem mergeConfig_emptyPorts_witness :
    emptyPortsLB.LoadBalancer.Ports.Edges = ([] : List PortEdges) ∧
    mergeConfig exampleBase emptyPortsLB = .ok exampleBase :=
  ⟨rfl, mergeConfig_emptyPorts exampleBase emptyPortsLB rfl⟩
